import Mathlib

/-!
Verification of the face-timer core (blink tracking, attention scoring,
presence gating, and the activity timer) against its specification.

The embedding mirrors the TypeScript source:
  * `detectBlink` — the blink hysteresis detector of `useFaceDetection.ts`;
  * `calculateAttentionScore` — the attention-score deduction chain;
  * `computeAdvancedEAR`, `computeMAR`, `estimateHeadPose`,
    `advancedGazeEstimation` — the per-frame geometry metrics;
  * the no-face branch of the 150ms sampling loop;
  * `memoizedStopDetection` — detection-session teardown;
  * the timer context (`startTimer` / `pauseTimer` / `resumeTimer` /
    `stopTimer`) with its per-task accumulated-time map;
  * the face-confirmation gate of the Timer component.

JavaScript numbers are modelled as exact rationals; a possibly-NaN number is
modelled as `JSNum` (`Option`-like), with the JS comparison semantics that
every comparison against NaN is false.  Wall-clock timestamps are integers
(milliseconds).  The floating-point primitives `Math.sqrt`, `Math.atan`,
`Math.atan2` and `Math.PI` are opaque to every claim below, so the embedding
is parametrised over them (`RealPrim`).
-/

namespace FaceTimer

/-- A JavaScript number that may be NaN: `num q` is an ordinary (finite)
value, `nan` is NaN. -/
inductive JSNum where
  | nan : JSNum
  | num (q : ℚ) : JSNum
deriving DecidableEq, Repr

/-- JS `<`: false whenever either operand is NaN. -/
def jsLt : JSNum → JSNum → Bool
  | JSNum.num a, JSNum.num b => decide (a < b)
  | _, _ => false

/-- JS `>=`: false whenever either operand is NaN. -/
def jsGe : JSNum → JSNum → Bool
  | JSNum.num a, JSNum.num b => decide (b ≤ a)
  | _, _ => false

/-- Blink-detector state: the `useState` triple
(`blinkTimestamps`, `isEyeClosed`, `lastBlinkTime`) of `useFaceDetection.ts`. -/
structure BlinkState where
  blinkTimestamps : List ℤ
  isEyeClosed : Bool
  lastBlinkTime : ℤ
deriving DecidableEq, Repr

/-- Initial blink state (all three `useState` initialisers). -/
def BlinkState.initial : BlinkState :=
  { blinkTimestamps := [], isEyeClosed := false, lastBlinkTime := 0 }

/-- `BLINK_THRESHOLD = 0.25`. -/
def BLINK_THRESHOLD : ℚ := mkRat 25 100

/-- `MIN_BLINK_DURATION = 100` ms. -/
def MIN_BLINK_DURATION : ℤ := 100

/-- `MAX_BLINK_DURATION = 500` ms. -/
def MAX_BLINK_DURATION : ℤ := 500

/-- The sliding-window count of line 304 of `useFaceDetection.ts`:
`blinkTimestamps.filter(ts => currentTime - ts <= 60000).length`. -/
def recentBlinkCount (log : List ℤ) (currentTime : ℤ) : ℕ :=
  (log.filter (fun ts => decide (currentTime - ts ≤ 60000))).length

/-- `detectBlink` of `useFaceDetection.ts` (lines 249–315): one step of the
blink hysteresis detector.  Takes the current state, the EAR sample and
`currentTime = Date.now()`; returns the updated state and the returned
blinks-per-minute count.  The returned count is computed from the
pre-update `blinkTimestamps` closure value, exactly as in the source. -/
def detectBlink (s : BlinkState) (ear : JSNum) (currentTime : ℤ) :
    BlinkState × ℕ :=
  let s' :=
    if jsLt ear (JSNum.num BLINK_THRESHOLD) && !s.isEyeClosed then
      { s with isEyeClosed := true, lastBlinkTime := currentTime }
    else if jsGe ear (JSNum.num BLINK_THRESHOLD) && s.isEyeClosed then
      let blinkDuration := currentTime - s.lastBlinkTime
      let s1 :=
        if MIN_BLINK_DURATION ≤ blinkDuration ∧ blinkDuration ≤ MAX_BLINK_DURATION then
          let newTimestamps := s.blinkTimestamps ++ [currentTime]
          let filtered :=
            newTimestamps.filter (fun ts => decide (currentTime - ts ≤ 60000))
          { s with blinkTimestamps := filtered }
        else s
      { s1 with isEyeClosed := false }
    else s
  (s', recentBlinkCount s.blinkTimestamps currentTime)

/-- Gaze buckets of `advancedGazeEstimation`. -/
inductive Gaze where
  | center | left | right | up | down | unknown
deriving DecidableEq, Repr

/-- Head-pose angles (degrees) of `estimateHeadPose`. -/
structure HeadPose where
  yaw : ℚ
  pitch : ℚ
  roll : ℚ
deriving DecidableEq, Repr

/-- Fatigue levels of `assessFatigueLevel`. -/
inductive FatigueLevel where
  | low | medium | high
deriving DecidableEq, Repr

/-- The tail of the deduction chain of `calculateAttentionScore`
(`useFaceDetection.ts` lines 189–204): head-pose, gaze and blink-rate
deductions followed by the final clamp `Math.max(0, Math.min(100, score))`.
Factored out of `calculateAttentionScore` so the mar-independent tail can be
reasoned about once. -/
def scoreAfterMar (headPose : HeadPose) (gazeDirection : Gaze)
    (blinkRate : ℕ) (score2 : ℤ) : ℤ :=
  let totalHeadMovement := |headPose.yaw| + |headPose.pitch| + |headPose.roll|
  let score3 :=
    if totalHeadMovement > 45 then score2 - 25
    else if totalHeadMovement > 25 then score2 - 15
    else score2
  let score4 := if gazeDirection ≠ Gaze.center then score3 - 20 else score3
  let score5 :=
    if blinkRate < 8 then score4 - 35
    else if blinkRate < 12 then score4 - 20
    else if blinkRate > 35 then score4 - 25
    else if blinkRate > 25 then score4 - 10
    else score4
  max 0 (min 100 score5)

/-- `calculateAttentionScore` of `useFaceDetection.ts` (lines 171–205):
starts at 100, applies at most one tiered deduction per signal
(EAR, MAR, head movement, gaze, blink rate), clamps to `[0, 100]`. -/
def calculateAttentionScore (ear mar : ℚ) (headPose : HeadPose)
    (gazeDirection : Gaze) (blinkRate : ℕ) : ℤ :=
  let score : ℤ := 100
  let score1 :=
    if ear < mkRat 15 100 then score - 40
    else if ear < mkRat 20 100 then score - 25
    else if ear < mkRat 25 100 then score - 10
    else score
  let score2 :=
    if mar > mkRat 7 10 then score1 - 30
    else if mar > mkRat 5 10 then score1 - 15
    else score1
  scoreAfterMar headPose gazeDirection blinkRate score2

/-- `assessFatigueLevel` of `useFaceDetection.ts` (lines 208–215). -/
def assessFatigueLevel (attentionScore : ℤ) (ear : ℚ)
    (consecutiveDrowsyFrames : ℕ) : FatigueLevel :=
  if attentionScore < 30 ∨ ear < mkRat 15 100 ∨ consecutiveDrowsyFrames > 10 then
    FatigueLevel.high
  else if attentionScore < 60 ∨ ear < mkRat 20 100 ∨ consecutiveDrowsyFrames > 5 then
    FatigueLevel.medium
  else FatigueLevel.low

/-- `assessDrowsinessFromBlinks` of `useFaceDetection.ts` (lines 318–330). -/
def assessDrowsinessFromBlinks (blinksPerMinute : ℕ) : Bool × String :=
  if blinksPerMinute < 8 then (true, "매우 졸림")
  else if blinksPerMinute < 12 then (true, "졸림")
  else if blinksPerMinute ≤ 25 then (false, "정상")
  else if blinksPerMinute ≤ 35 then (false, "약간 긴장")
  else (false, "매우 긴장")

/-- A 2D landmark point. -/
structure Pt where
  x : ℚ
  y : ℚ
deriving DecidableEq, Repr

/-- The floating-point primitives the geometry code calls (`Math.sqrt`,
`Math.atan`, `Math.atan2`, `Math.PI`).  No claim depends on their values, so
the embedding is parametric in them. -/
structure RealPrim where
  sqrt : ℚ → ℚ
  atan : ℚ → ℚ
  atan2 : ℚ → ℚ → ℚ
  pi : ℚ

/-- `euclideanDistance` as written inside `computeAdvancedEAR` / `computeMAR`:
`Math.sqrt((a.x-b.x)^2 + (a.y-b.y)^2)`. -/
def euclideanDistance (P : RealPrim) (a b : Pt) : ℚ :=
  P.sqrt ((a.x - b.x) ^ 2 + (a.y - b.y) ^ 2)

/-- `computeAdvancedEAR` of `useFaceDetection.ts` (lines 44–75): fallback
0.25 for fewer than 6 points, else `(v1 + v2) / (2 * horizontal)`. -/
def computeAdvancedEAR (P : RealPrim) (eye : List Pt) : ℚ :=
  if eye.length < 6 then mkRat 25 100
  else
    let vertical1 := euclideanDistance P (eye.getD 1 ⟨0, 0⟩) (eye.getD 5 ⟨0, 0⟩)
    let vertical2 := euclideanDistance P (eye.getD 2 ⟨0, 0⟩) (eye.getD 4 ⟨0, 0⟩)
    let horizontal := euclideanDistance P (eye.getD 0 ⟨0, 0⟩) (eye.getD 3 ⟨0, 0⟩)
    (vertical1 + vertical2) / (2 * horizontal)

/-- `computeMAR` of `useFaceDetection.ts` (lines 78–93). -/
def computeMAR (P : RealPrim) (mouth : List Pt) : ℚ :=
  if mouth.length < 20 then 0
  else
    let vertical1 := euclideanDistance P (mouth.getD 13 ⟨0, 0⟩) (mouth.getD 19 ⟨0, 0⟩)
    let vertical2 := euclideanDistance P (mouth.getD 14 ⟨0, 0⟩) (mouth.getD 18 ⟨0, 0⟩)
    let vertical3 := euclideanDistance P (mouth.getD 15 ⟨0, 0⟩) (mouth.getD 17 ⟨0, 0⟩)
    let horizontal := euclideanDistance P (mouth.getD 12 ⟨0, 0⟩) (mouth.getD 16 ⟨0, 0⟩)
    (vertical1 + vertical2 + vertical3) / (3 * horizontal)

/-- The landmark regions the analysis code reads (`getLeftEye`, `getRightEye`,
`getMouth`, `getNose`, `getJawOutline`). -/
structure Landmarks where
  leftEye : List Pt
  rightEye : List Pt
  mouth : List Pt
  nose : List Pt
  jawOutline : List Pt
deriving DecidableEq, Repr

/-- `estimateHeadPose` of `useFaceDetection.ts` (lines 96–123).  The `chin`
point is extracted in the source but never used. -/
def estimateHeadPose (P : RealPrim) (landmarks : Landmarks) : HeadPose :=
  let noseTip := landmarks.nose.getD 3 ⟨0, 0⟩
  let leftEyeCorner := landmarks.leftEye.getD 0 ⟨0, 0⟩
  let rightEyeCorner := landmarks.rightEye.getD 3 ⟨0, 0⟩
  let leftMouth := landmarks.mouth.getD 0 ⟨0, 0⟩
  let rightMouth := landmarks.mouth.getD 6 ⟨0, 0⟩
  let eyeCenter : Pt :=
    ⟨(leftEyeCorner.x + rightEyeCorner.x) / 2, (leftEyeCorner.y + rightEyeCorner.y) / 2⟩
  let noseToEyeCenter := noseTip.x - eyeCenter.x
  let yaw := P.atan2 noseToEyeCenter |leftEyeCorner.x - rightEyeCorner.x| * (180 / P.pi)
  let eyeToNose := noseTip.y - eyeCenter.y
  let noseToMouth := |noseTip.y - (leftMouth.y + rightMouth.y) / 2|
  let pitch := P.atan2 eyeToNose noseToMouth * (180 / P.pi)
  let eyeSlope := (rightEyeCorner.y - leftEyeCorner.y) / (rightEyeCorner.x - leftEyeCorner.x)
  let roll := P.atan eyeSlope * (180 / P.pi)
  { yaw := yaw, pitch := pitch, roll := roll }

/-- `advancedGazeEstimation` of `useFaceDetection.ts` (lines 126–168).  The
source's null-check on the region getters is modelled as the empty-region
degenerate case. -/
def advancedGazeEstimation (landmarks : Landmarks) : Gaze :=
  let leftEye := landmarks.leftEye
  let rightEye := landmarks.rightEye
  let nose := landmarks.nose
  if leftEye.isEmpty || rightEye.isEmpty || nose.isEmpty then Gaze.unknown
  else
    let leftEyeCenter : Pt :=
      ⟨(leftEye.map Pt.x).sum / (leftEye.length : ℚ),
       (leftEye.map Pt.y).sum / (leftEye.length : ℚ)⟩
    let rightEyeCenter : Pt :=
      ⟨(rightEye.map Pt.x).sum / (rightEye.length : ℚ),
       (rightEye.map Pt.y).sum / (rightEye.length : ℚ)⟩
    let noseTip := nose.getD 3 ⟨0, 0⟩
    let eyeCenter : Pt :=
      ⟨(leftEyeCenter.x + rightEyeCenter.x) / 2, (leftEyeCenter.y + rightEyeCenter.y) / 2⟩
    let gazeX := noseTip.x - eyeCenter.x
    let gazeY := noseTip.y - eyeCenter.y
    if |gazeX| > 8 then (if gazeX > 0 then Gaze.right else Gaze.left)
    else if |gazeY| > 6 then (if gazeY > 0 then Gaze.down else Gaze.up)
    else Gaze.center

/-- The per-frame analysis result emitted to `onFaceDetected`
(`FaceAnalysisResult` of `useFaceDetection.ts`). -/
structure FaceAnalysisResult where
  isDrowsy : Bool
  isAttentive : Bool
  emotion : String
  ear : ℚ
  mar : ℚ
  gazeDirection : Gaze
  headPose : HeadPose
  blinkRate : ℕ
  attentionScore : ℤ
  fatigueLevel : FatigueLevel
  confidence : ℤ
deriving Repr

/-- The detection-success branch of the 150ms sampling loop
(`useFaceDetection.ts` lines 741–786): computes head pose, the two-eye mean
EAR, MAR, gaze, steps the blink detector, combines the drowsiness signals,
scores attention and fatigue, and assembles the emitted
`FaceAnalysisResult`.  `emotion` and `detectionScore` stand for the
expression classifier's top label and the detector confidence. -/
def analyzeFace (P : RealPrim) (landmarks : Landmarks) (emotion : String)
    (detectionScore : ℚ) (blink : BlinkState) (consecutiveDrowsyFrames : ℕ)
    (now : ℤ) : BlinkState × FaceAnalysisResult :=
  let pose := estimateHeadPose P landmarks
  let ear := (computeAdvancedEAR P landmarks.leftEye +
              computeAdvancedEAR P landmarks.rightEye) / 2
  let mar := computeMAR P landmarks.mouth
  let gaze := advancedGazeEstimation landmarks
  let blinkStep := detectBlink blink (JSNum.num ear) now
  let blinkRate := blinkStep.2
  let isDrowsyFromBlinks := (assessDrowsinessFromBlinks blinkRate).1
  let isDrowsyFromEyes := decide (ear < mkRat 20 100)
  let isDrowsyFromMouth := decide (mar > mkRat 4 10)
  let isDrowsyFromHead := decide (|pose.pitch| > 25)
  let isDrowsy := isDrowsyFromEyes || isDrowsyFromMouth || isDrowsyFromHead ||
                  isDrowsyFromBlinks
  let attentionScore := calculateAttentionScore ear mar pose gaze blinkRate
  let fatigueLevel := assessFatigueLevel attentionScore ear consecutiveDrowsyFrames
  (blinkStep.1,
   { isDrowsy := isDrowsy
     isAttentive := decide (attentionScore > 70)
     emotion := emotion
     ear := ear
     mar := mar
     gazeDirection := gaze
     headPose := pose
     blinkRate := blinkRate
     attentionScore := attentionScore
     fatigueLevel := fatigueLevel
     confidence := round (detectionScore * 100) })

/-- State of the sampling loop relevant to the no-face branch:
`lastDetectionTime` (`useFaceDetection.ts` line 227). -/
structure LoopState where
  lastDetectionTime : ℤ
deriving DecidableEq, Repr

/-- The no-face branch of the sampling loop (`useFaceDetection.ts` lines
787–792): if more than 5000ms have passed since the last detection, call
`onFaceNotDetected()` (the returned flag) and reset `lastDetectionTime` to
now. -/
def sampleNoFace (s : LoopState) (now : ℤ) : LoopState × Bool :=
  if now - s.lastDetectionTime > 5000 then ({ lastDetectionTime := now }, true)
  else (s, false)

/-- The detection-success branch's effect on `lastDetectionTime`
(`useFaceDetection.ts` line 740). -/
def sampleFace (_ : LoopState) (now : ℤ) : LoopState :=
  { lastDetectionTime := now }

/-- Count how many `onFaceNotDetected` notifications a run of face-absent
samples at the given times produces. -/
def countNoFaceFires (s : LoopState) (samples : List ℤ) : ℕ :=
  (samples.foldl
    (fun (acc : LoopState × ℕ) now =>
      let r := sampleNoFace acc.1 now
      (r.1, acc.2 + (if r.2 then 1 else 0)))
    (s, 0)).2

/-- Timer phase, derived from the `isActive` / `isPaused` flag pair of the
timer context. -/
inductive Phase where
  | Idle | Running | Paused
deriving DecidableEq, Repr

/-- The timer context state (`TimerContext.tsx`): the `useState` fields of
`TimerProvider`.  `taskTimes` models the `Record<string, number>` of per-task
accumulated milliseconds; a missing key reads as 0 (`taskTimes[id] || 0`). -/
structure TimerState where
  activeTask : Option String
  isActive : Bool
  isPaused : Bool
  elapsedTime : ℤ
  startTime : Option ℤ
  pausedTime : ℤ
  lastElapsedTime : ℤ
  taskTimes : String → ℤ

/-- Phase of a timer state: `Idle` when inactive, `Paused` when active and
paused, else `Running`. -/
def TimerState.phase (s : TimerState) : Phase :=
  if s.isActive then (if s.isPaused then Phase.Paused else Phase.Running)
  else Phase.Idle

/-- `startTimer` of `TimerContext.tsx` (lines 126–148): resumes from the
task's stored accumulated time when positive, else starts fresh. -/
def startTimer (s : TimerState) (taskId : String) (now : ℤ) : TimerState :=
  let previousTimeForTask := s.taskTimes taskId
  let s0 := { s with activeTask := some taskId, isActive := true,
                     isPaused := false, pausedTime := 0 }
  if previousTimeForTask > 0 then
    { s0 with startTime := some (now - previousTimeForTask)
              elapsedTime := previousTimeForTask
              lastElapsedTime := previousTimeForTask }
  else
    { s0 with startTime := some now, elapsedTime := 0, lastElapsedTime := 0 }

/-- One iteration of the 10ms elapsed-time interval of `TimerContext.tsx`
(lines 103–124): while active and not paused, `elapsedTime := now - startTime`. -/
def timerTick (s : TimerState) (now : ℤ) : TimerState :=
  if s.isActive = true ∧ s.isPaused = false then
    match s.startTime with
    | some st => { s with elapsedTime := now - st, lastElapsedTime := now - st }
    | none => s
  else s

/-- `pauseTimer` of `TimerContext.tsx` (lines 150–157). -/
def pauseTimer (s : TimerState) : TimerState :=
  if s.isActive = true ∧ s.isPaused = false then
    { s with isPaused := true, lastElapsedTime := s.elapsedTime }
  else s

/-- `resumeTimer` of `TimerContext.tsx` (lines 159–177):
`startTime := now - lastElapsedTime`. -/
def resumeTimer (s : TimerState) (now : ℤ) : TimerState :=
  if s.isPaused = true then
    { s with startTime := some (now - s.lastElapsedTime), isPaused := false }
  else s

/-- `stopTimer` of `TimerContext.tsx` (lines 179–208): persists `elapsedTime`
under the active task's id when a run was in progress, then deactivates.  The
source deliberately keeps `activeTask` (its comment: "activeTask는 유지"). -/
def stopTimer (s : TimerState) : TimerState :=
  let s1 :=
    match s.activeTask with
    | some taskId =>
      if s.isActive = true then
        { s with taskTimes := fun id => if id = taskId then s.elapsedTime else s.taskTimes id
                 lastElapsedTime := s.elapsedTime }
      else s
    | none => s
  { s1 with isActive := false, isPaused := false, startTime := none, pausedTime := 0 }

/-- The detection-session state cleared by `memoizedStopDetection`
(`useFaceDetection.ts` lines 430–458), plus the interval/animation-frame
handles modelled as booleans. -/
structure DetectionState where
  isDetecting : Bool
  hasDetectionInterval : Bool
  hasAnimationFrame : Bool
  lastFullDetectionsCount : ℕ
  frameCount : ℕ
  consecutiveDrowsyFrames : ℕ
  earHistory : List ℚ
  attentionHistory : List ℤ
  blink : BlinkState
  smoothedBoxesCount : ℕ

/-- Detection state and timer state live in different modules
(`useFaceDetection.ts` vs `TimerContext.tsx`); the pair is the whole system
relevant to detection teardown. -/
structure SystemState where
  detection : DetectionState
  timer : TimerState

/-- `memoizedStopDetection` of `useFaceDetection.ts` (lines 430–458): halts
the loop, clears the interval and animation-frame handles, empties the
histories, resets the blink state and the drowsy-frame counter.  It touches
nothing of the timer context. -/
def memoizedStopDetection (s : SystemState) : SystemState :=
  { s with detection :=
    { isDetecting := false
      hasDetectionInterval := false
      hasAnimationFrame := false
      lastFullDetectionsCount := 0
      frameCount := 0
      consecutiveDrowsyFrames := 0
      earHistory := []
      attentionHistory := []
      blink := { blinkTimestamps := [], isEyeClosed := false, lastBlinkTime := 0 }
      smoothedBoxesCount := 0 } }

/-- The face-confirmation gate state of the Timer component (`Timer.tsx`):
`isWaitingForFace`, `canStartTimer`, `faceDetectedStartTime` and the pending
5-second timeout, the latter modelled by its scheduled fire time. -/
structure GateState where
  isWaitingForFace : Bool
  canStartTimer : Bool
  faceDetectedStartTime : Option ℤ
  timeoutDeadline : Option ℤ
deriving DecidableEq, Repr

/-- Modelled from the spec: `startFaceDetectionTimer` lives in the
`useTimerState` hook, which is not among the sources; per §4.5 it records the
confirmation start (`since = now`) and schedules the confirmation
(`canStartTimer := true`) 5000ms later. -/
def startFaceDetectionTimer (g : GateState) (now : ℤ) : GateState :=
  { g with faceDetectedStartTime := some now, timeoutDeadline := some (now + 5000) }

/-- The face-waiting branch of `onFaceDetected` in `Timer.tsx` (lines
150–155): while waiting and not yet confirmed, start the confirmation timer
if none is running. -/
def gateFaceDetected (g : GateState) (now : ℤ) : GateState :=
  if g.isWaitingForFace = true ∧ g.canStartTimer = false then
    if g.faceDetectedStartTime = none then startFaceDetectionTimer g now else g
  else g

/-- Modelled from the spec: the scheduled confirmation callback (set by
`startFaceDetectionTimer` in the missing `useTimerState` hook) fires once its
deadline is reached, unless it was cleared meanwhile. -/
def gateTimeoutFire (g : GateState) (now : ℤ) : GateState :=
  match g.timeoutDeadline with
  | some d =>
    if d ≤ now then { g with canStartTimer := true, timeoutDeadline := none }
    else g
  | none => g

/-- The reset performed by `onFaceNotDetected` in `Timer.tsx` (lines
174–182): clear the pending timeout, null the confirmation start, revoke
`canStartTimer`. -/
def gateFaceNotDetected (g : GateState) : GateState :=
  { g with timeoutDeadline := none, faceDetectedStartTime := none,
           canStartTimer := false }

/-- The gate state armed by entering camera mode: waiting for a face, no
confirmation, no timer running. -/
def gateWaiting : GateState :=
  { isWaitingForFace := true, canStartTimer := false,
    faceDetectedStartTime := none, timeoutDeadline := none }

/-- Combined state of the sampling loop (`lastDetectionTime`) and the
face-confirmation gate, as composed by the program: the loop's callbacks
`onFaceDetected` / `onFaceNotDetected` are the Timer component's handlers. -/
structure LoopGateState where
  loop : LoopState
  gate : GateState
deriving DecidableEq, Repr

/-- Timestamped inputs of the composed system: a sample with a detected
face, a sample with no face, and the scheduled confirmation timeout
firing. -/
inductive SysEvent where
  | face (t : ℤ)
  | absent (t : ℤ)
  | fire (t : ℤ)
deriving DecidableEq, Repr

/-- One step of the composed system.  A detected face refreshes
`lastDetectionTime` (`useFaceDetection.ts` line 740) and invokes
`onFaceDetected`, whose waiting branch is `gateFaceDetected`; an absent
sample invokes `onFaceNotDetected` — and hence the gate reset — only when
more than 5000ms have passed since the last detection
(`useFaceDetection.ts` lines 787–792), otherwise it changes nothing; `fire`
is the scheduled confirmation timeout reaching the gate. -/
def systemStep (s : LoopGateState) : SysEvent → LoopGateState
  | SysEvent.face t =>
    { loop := sampleFace s.loop t, gate := gateFaceDetected s.gate t }
  | SysEvent.absent t =>
    let r := sampleNoFace s.loop t
    { loop := r.1, gate := if r.2 then gateFaceNotDetected s.gate else s.gate }
  | SysEvent.fire t =>
    { s with gate := gateTimeoutFire s.gate t }

/-- Run the composed system over an event trace. -/
def runSystem (s : LoopGateState) (evs : List SysEvent) : LoopGateState :=
  evs.foldl systemStep s

/-- Detection freshly started (`lastDetectionTime := Date.now()`, here 0)
with the gate armed. -/
def loopGateStart : LoopGateState :=
  { loop := { lastDetectionTime := 0 }, gate := gateWaiting }

/-- Face samples every 150ms from 0 through 4800, then one absent sample at
4950 — i.e. continuous presence for almost 5000ms followed by a single
absent sample before the 5000ms confirmation deadline. -/
def facesThenOneAbsent : List SysEvent :=
  ((List.range 33).map (fun i => SysEvent.face ((150 : ℤ) * i))) ++
    [SysEvent.absent 4950]

/-- The same trace followed by the confirmation timeout firing at its
5000ms deadline. -/
def facesOneAbsentThenFire : List SysEvent :=
  facesThenOneAbsent ++ [SysEvent.fire 5000]

/-! ## Theorems -/

/-- C1: a blink episode — EAR below 0.25 at time `t1` while the eye was
open, then back to/above 0.25 at time `t2` — appends `t2` to the blink log
iff the closed duration `t2 - t1` lies in `[100, 500]` ms; concretely, a
200ms drop-recover cycle records exactly one blink while 50ms and 600ms
cycles record none. -/
theorem blink_episode_records_iff_duration_in_range
    (s : BlinkState) (q1 q2 : ℚ) (t1 t2 : ℤ)
    (hopen : s.isEyeClosed = false) (hq1 : q1 < BLINK_THRESHOLD)
    (hq2 : BLINK_THRESHOLD ≤ q2)
    (hpast : ∀ ts ∈ s.blinkTimestamps, ts < t2) :
    (t2 ∈ ((detectBlink (detectBlink s (JSNum.num q1) t1).1
              (JSNum.num q2) t2).1).blinkTimestamps
        ↔ (100 ≤ t2 - t1 ∧ t2 - t1 ≤ 500)) ∧
    (detectBlink (detectBlink BlinkState.initial (JSNum.num (mkRat 2 10)) 1000).1
        (JSNum.num (mkRat 3 10)) 1200).1.blinkTimestamps = [1200] ∧
    (detectBlink (detectBlink BlinkState.initial (JSNum.num (mkRat 2 10)) 1000).1
        (JSNum.num (mkRat 3 10)) 1050).1.blinkTimestamps = [] ∧
    (detectBlink (detectBlink BlinkState.initial (JSNum.num (mkRat 2 10)) 1000).1
        (JSNum.num (mkRat 3 10)) 1600).1.blinkTimestamps = [] := by
  refine ⟨?_, by decide, by decide, by decide⟩
  have hlt1 : jsLt (JSNum.num q1) (JSNum.num BLINK_THRESHOLD) = true := by
    simpa [jsLt] using hq1
  have hlt2 : jsLt (JSNum.num q2) (JSNum.num BLINK_THRESHOLD) = false := by
    simpa [jsLt] using not_lt.mpr hq2
  have hge2 : jsGe (JSNum.num q2) (JSNum.num BLINK_THRESHOLD) = true := by
    simpa [jsGe] using hq2
  have h1 : (detectBlink s (JSNum.num q1) t1).1 =
      { s with isEyeClosed := true, lastBlinkTime := t1 } := by
    simp [detectBlink, hlt1, hopen]
  rw [h1]
  simp only [detectBlink, hlt2, hge2, MIN_BLINK_DURATION, MAX_BLINK_DURATION,
    Bool.false_and, Bool.true_and, Bool.and_true, Bool.and_false,
    Bool.false_eq_true, if_false, if_true]
  split_ifs with hd
  · refine iff_of_true ?_ hd
    simp only [List.mem_filter, List.mem_append, List.mem_singleton,
      decide_eq_true_eq]
    exact ⟨Or.inr trivial, by omega⟩
  · refine iff_of_false ?_ hd
    intro hmem
    exact lt_irrefl t2 (hpast t2 hmem)

/-- Witness for C1: a concrete 200ms episode from the initial state. -/
theorem blink_episode_records_iff_duration_in_range_witness :
    (BlinkState.initial.isEyeClosed = false ∧ mkRat 2 10 < BLINK_THRESHOLD ∧
      BLINK_THRESHOLD ≤ mkRat 3 10 ∧
      (∀ ts ∈ BlinkState.initial.blinkTimestamps, ts < 200)) ∧
    ((200 : ℤ) ∈ ((detectBlink (detectBlink BlinkState.initial
          (JSNum.num (mkRat 2 10)) 0).1 (JSNum.num (mkRat 3 10)) 200).1).blinkTimestamps
       ↔ ((100 : ℤ) ≤ 200 - 0 ∧ (200 : ℤ) - 0 ≤ 500)) :=
  ⟨⟨by decide, by decide, by decide, by decide⟩,
   (blink_episode_records_iff_duration_in_range BlinkState.initial (mkRat 2 10)
      (mkRat 3 10) 0 200 (by decide) (by decide) (by decide) (by decide)).1⟩

/-- C4: the blink rate returned by `detectBlink` is the sliding-window count
of logged timestamps within the last 60000ms of now: a log lying entirely
inside the window counts in full, and a log holding one entry 61000ms old
and one 1000ms old counts exactly 1. -/
theorem blink_rate_counts_sliding_window
    (log : List ℤ) (c : Bool) (l : ℤ) (e : JSNum) (now : ℤ)
    (hwin : ∀ ts ∈ log, now - ts ≤ 60000) :
    (detectBlink ⟨log, c, l⟩ e now).2 = log.length ∧
    (∀ (m : ℤ) (e' : JSNum) (c' : Bool) (l' : ℤ),
      (detectBlink ⟨[m - 61000, m - 1000], c', l'⟩ e' m).2 = 1) := by
  constructor
  · show recentBlinkCount log now = log.length
    unfold recentBlinkCount
    rw [List.filter_eq_self.mpr]
    intro a ha
    exact decide_eq_true (hwin a ha)
  · intro m e' c' l'
    show recentBlinkCount [m - 61000, m - 1000] m = 1
    have h1 : ¬(m - (m - 61000) ≤ 60000) := by omega
    have h2 : m - (m - 1000) ≤ 60000 := by omega
    unfold recentBlinkCount
    simp only [List.filter_cons, List.filter_nil]
    rw [decide_eq_false h1, decide_eq_true h2]
    simp

/-- Witness for C4: a two-entry in-window log counts 2; the 61000ms/1000ms
log counts 1. -/
theorem blink_rate_counts_sliding_window_witness :
    (∀ ts ∈ [(50 : ℤ), 60], (100 : ℤ) - ts ≤ 60000) ∧
    (detectBlink ⟨[(50 : ℤ), 60], false, 0⟩ JSNum.nan 100).2 = 2 ∧
    (detectBlink ⟨[(0 : ℤ) - 61000, 0 - 1000], false, 0⟩ JSNum.nan 0).2 = 1 :=
  ⟨by decide,
   by
    have h := (blink_rate_counts_sliding_window [(50 : ℤ), 60] false 0
      JSNum.nan 100 (by decide)).1
    simpa using h,
   (blink_rate_counts_sliding_window [(50 : ℤ), 60] false 0 JSNum.nan 100
      (by decide)).2 0 JSNum.nan false 0⟩

/-- C3 counterexample: a single unbroken absence episode of 10200ms (samples
every 150ms, `lastDetectionTime` starting at 0) produces two
`onFaceNotDetected` notifications, not one. -/
theorem noface_fires_twice_in_one_sustained_absence :
    countNoFaceFires ⟨0⟩ ((List.range 68).map (fun i => (150 : ℤ) * (i + 1))) = 2 ∧
    countNoFaceFires ⟨0⟩ ((List.range 68).map (fun i => (150 : ℤ) * (i + 1))) ≠ 1 := by
  exact ⟨by decide, by decide⟩

/-- C3 amended: the no-face branch fires iff more than 5000ms have passed
since `lastDetectionTime`, and firing resets `lastDetectionTime` to now — so
within one sustained absence it fires once per ~5000ms, once in total for a
5100ms absence. -/
theorem noface_notification_fires_per_5000ms_interval :
    (∀ (s : LoopState) (now : ℤ),
      ((sampleNoFace s now).2 = true ↔ 5000 < now - s.lastDetectionTime) ∧
      (sampleNoFace s now).1.lastDetectionTime =
        (if 5000 < now - s.lastDetectionTime then now else s.lastDetectionTime)) ∧
    countNoFaceFires ⟨0⟩ ((List.range 34).map (fun i => (150 : ℤ) * (i + 1))) = 1 := by
  refine ⟨?_, by decide⟩
  intro s now
  unfold sampleNoFace
  split_ifs with h <;> simp [h]

/-- C2 counterexample: in the composed program, a single absent sample
observed before the 5000ms confirmation deadline (faces every 150ms from 0
to 4800, one absent sample at 4950) does NOT reset the confirmation start —
the reset handler is reached only after more than 5000ms without any
detection — and the scheduled timeout then fires at 5000 and confirms. -/
theorem absent_sample_before_5000ms_does_not_reset_confirmation :
    (runSystem loopGateStart facesThenOneAbsent).gate.faceDetectedStartTime =
        some 0 ∧
    (runSystem loopGateStart facesThenOneAbsent).gate.faceDetectedStartTime ≠
        none ∧
    (runSystem loopGateStart facesThenOneAbsent).gate.timeoutDeadline =
        some 5000 ∧
    (runSystem loopGateStart facesOneAbsentThenFire).gate.canStartTimer =
        true := by
  exact ⟨by decide, by decide, by decide, by decide⟩

/-- C2 amended: an absent sample leaves the system untouched unless more
than 5000ms have passed since the last detection; only then is the
`onFaceNotDetected` reset delivered, nulling the confirmation start,
revoking `canStartTimer` and cancelling the pending timeout; and the
scheduled timeout confirms exactly once its 5000ms deadline is reached.  So
4999ms of presence followed by one absent sample still confirms. -/
theorem confirmation_reset_only_after_sustained_absence :
    (∀ (s : LoopGateState) (now : ℤ), now - s.loop.lastDetectionTime ≤ 5000 →
      systemStep s (SysEvent.absent now) = s) ∧
    (∀ (s : LoopGateState) (now : ℤ), 5000 < now - s.loop.lastDetectionTime →
      (systemStep s (SysEvent.absent now)).gate = gateFaceNotDetected s.gate) ∧
    (∀ g : GateState,
      (gateFaceNotDetected g).faceDetectedStartTime = none ∧
      (gateFaceNotDetected g).canStartTimer = false ∧
      (gateFaceNotDetected g).timeoutDeadline = none) ∧
    (∀ (g : GateState) (s0 t : ℤ), g.timeoutDeadline = some (s0 + 5000) →
      ((gateTimeoutFire g t).canStartTimer = true ↔
        (g.canStartTimer = true ∨ s0 + 5000 ≤ t))) := by
  refine ⟨?_, ?_, fun g => ⟨rfl, rfl, rfl⟩, ?_⟩
  · intro s now h
    rcases s with ⟨l, g⟩
    simp [systemStep, sampleNoFace, not_lt.mpr h]
  · intro s now h
    simp [systemStep, sampleNoFace, h]
  · intro g s0 t h
    unfold gateTimeoutFire
    rw [h]
    dsimp only
    split_ifs with hle
    · simp [hle]
    · simp [hle]

/-- Witness for C2 (amended): a recent-face absent sample is a no-op, a
sustained-absence sample delivers the reset, and the timeout clause at a
concrete armed state. -/
theorem confirmation_reset_only_after_sustained_absence_witness :
    ((4950 : ℤ) - 4800 ≤ 5000 ∧
      systemStep ⟨⟨4800⟩, gateWaiting⟩ (SysEvent.absent 4950) =
        ⟨⟨4800⟩, gateWaiting⟩) ∧
    ((5000 : ℤ) < 10200 - 0 ∧
      (systemStep ⟨⟨0⟩, gateWaiting⟩ (SysEvent.absent 10200)).gate =
        gateFaceNotDetected gateWaiting) ∧
    ((⟨true, false, some 0, some 5000⟩ : GateState).timeoutDeadline =
        some ((0 : ℤ) + 5000) ∧
      ((gateTimeoutFire ⟨true, false, some 0, some 5000⟩ 6000).canStartTimer =
          true ↔
        ((⟨true, false, some 0, some 5000⟩ : GateState).canStartTimer = true ∨
          (0 : ℤ) + 5000 ≤ 6000))) :=
  ⟨⟨by decide,
    confirmation_reset_only_after_sustained_absence.1 ⟨⟨4800⟩, gateWaiting⟩
      4950 (by decide)⟩,
   ⟨by decide,
    confirmation_reset_only_after_sustained_absence.2.1 ⟨⟨0⟩, gateWaiting⟩
      10200 (by decide)⟩,
   ⟨by decide,
    confirmation_reset_only_after_sustained_absence.2.2.2
      ⟨true, false, some 0, some 5000⟩ 0 6000 (by decide)⟩⟩

/-- Task id used in the concrete timer scenarios. -/
def studyId : String := "Study"

/-- A concrete running timer state on task `studyId`. -/
def runningStudyState : TimerState :=
  { activeTask := some studyId, isActive := true, isPaused := false,
    elapsedTime := 123000, startTime := some 0, pausedTime := 0,
    lastElapsedTime := 123000, taskTimes := fun _ => 0 }

/-- C5 counterexample: stopping a Running timer does NOT clear the active
task id — `stopTimer` deliberately keeps `activeTask`. -/
theorem stop_does_not_clear_active_task :
    runningStudyState.phase = Phase.Running ∧
    runningStudyState.activeTask = some studyId ∧
    (stopTimer runningStudyState).activeTask = some studyId ∧
    (stopTimer runningStudyState).activeTask ≠ none :=
  ⟨rfl, rfl, rfl, Option.some_ne_none studyId⟩

/-- C5 amended: stopping from Running or Paused transitions to Idle and
persists `elapsedTime` under the active task id, but retains `activeTask`
rather than clearing it. -/
theorem stop_persists_elapsed_and_idles
    (s : TimerState) (taskId : String)
    (hactive : s.isActive = true) (htask : s.activeTask = some taskId) :
    (stopTimer s).phase = Phase.Idle ∧
    (stopTimer s).taskTimes taskId = s.elapsedTime ∧
    (stopTimer s).activeTask = some taskId := by
  unfold stopTimer
  rw [htask]
  dsimp only
  rw [if_pos hactive]
  refine ⟨rfl, ?_, rfl⟩
  simp

/-- Witness for C5 (amended): the concrete running state. -/
theorem stop_persists_elapsed_and_idles_witness :
    (runningStudyState.isActive = true ∧
      runningStudyState.activeTask = some studyId) ∧
    ((stopTimer runningStudyState).phase = Phase.Idle ∧
     (stopTimer runningStudyState).taskTimes studyId =
       runningStudyState.elapsedTime ∧
     (stopTimer runningStudyState).activeTask = some studyId) :=
  ⟨⟨rfl, rfl⟩, stop_persists_elapsed_and_idles runningStudyState studyId rfl rfl⟩

/-- C6: starting a task with stored accumulated time E ≥ 0 enters Running
with `elapsedTime = E` and `startTime = now - E`; every later tick makes
`elapsedTime = now' - startTime`; and with E = 120000, ticking 3000ms after
start and pausing yields `elapsedTime = 123000` in phase Paused. -/
theorem start_resumes_from_stored_elapsed
    (s : TimerState) (taskId : String) (now : ℤ)
    (hE : 0 ≤ s.taskTimes taskId) :
    ((startTimer s taskId now).phase = Phase.Running ∧
     (startTimer s taskId now).activeTask = some taskId ∧
     (startTimer s taskId now).elapsedTime = s.taskTimes taskId ∧
     (startTimer s taskId now).startTime = some (now - s.taskTimes taskId)) ∧
    (∀ t : ℤ, (timerTick (startTimer s taskId now) t).elapsedTime =
        t - (now - s.taskTimes taskId)) ∧
    (s.taskTimes taskId = 120000 →
      (pauseTimer (timerTick (startTimer s taskId now) (now + 3000))).elapsedTime
          = 123000 ∧
      (pauseTimer (timerTick (startTimer s taskId now) (now + 3000))).phase
          = Phase.Paused) := by
  have hstart : startTimer s taskId now =
      { s with activeTask := some taskId, isActive := true, isPaused := false,
               pausedTime := 0, startTime := some (now - s.taskTimes taskId),
               elapsedTime := s.taskTimes taskId,
               lastElapsedTime := s.taskTimes taskId } := by
    unfold startTimer
    rcases lt_or_eq_of_le hE with hpos | hzero
    · rw [if_pos hpos]
    · rw [if_neg (by omega)]
      simp [← hzero]
  rw [hstart]
  refine ⟨⟨rfl, rfl, rfl, rfl⟩, ?_, ?_⟩
  · intro t
    simp [timerTick]
  · intro h120
    rw [h120]
    constructor
    · show (pauseTimer (timerTick _ _)).elapsedTime = 123000
      simp [timerTick, pauseTimer]
    · simp [timerTick, pauseTimer, TimerState.phase]

/-- A concrete idle state storing 120000ms of accumulated time for
`studyId`. -/
def studyStoredState : TimerState :=
  { activeTask := none, isActive := false, isPaused := false, elapsedTime := 0,
    startTime := none, pausedTime := 0, lastElapsedTime := 0,
    taskTimes := fun id => if id = studyId then 120000 else 0 }

/-- Witness for C6: the stored-120000ms scenario at `now = 0`. -/
theorem start_resumes_from_stored_elapsed_witness :
    (0 ≤ studyStoredState.taskTimes studyId ∧
      studyStoredState.taskTimes studyId = 120000) ∧
    ((pauseTimer (timerTick (startTimer studyStoredState studyId 0)
        (0 + 3000))).elapsedTime = 123000 ∧
     (pauseTimer (timerTick (startTimer studyStoredState studyId 0)
        (0 + 3000))).phase = Phase.Paused) :=
  ⟨⟨by simp [studyStoredState], by simp [studyStoredState]⟩,
   (start_resumes_from_stored_elapsed studyStoredState studyId 0
      (by simp [studyStoredState])).2.2 (by simp [studyStoredState])⟩

/-- The mar-independent tail of the score is clamped into `[0, 100]`. -/
lemma scoreAfterMar_bounds (p : HeadPose) (g : Gaze) (r : ℕ) (x : ℤ) :
    0 ≤ scoreAfterMar p g r x ∧ scoreAfterMar p g r x ≤ 100 := by
  unfold scoreAfterMar
  exact ⟨le_max_left _ _, max_le (by norm_num) (min_le_left _ _)⟩

/-- The mar-independent tail of the score is monotone in its input. -/
lemma scoreAfterMar_mono (p : HeadPose) (g : Gaze) (r : ℕ) {x y : ℤ}
    (h : x ≤ y) : scoreAfterMar p g r x ≤ scoreAfterMar p g r y := by
  have h3 : ∀ a b : ℤ, a ≤ b →
      (if |p.yaw| + |p.pitch| + |p.roll| > 45 then a - 25
       else if |p.yaw| + |p.pitch| + |p.roll| > 25 then a - 15 else a) ≤
      (if |p.yaw| + |p.pitch| + |p.roll| > 45 then b - 25
       else if |p.yaw| + |p.pitch| + |p.roll| > 25 then b - 15 else b) := by
    intro a b hab
    split_ifs <;> omega
  have h4 : ∀ a b : ℤ, a ≤ b →
      (if g ≠ Gaze.center then a - 20 else a) ≤
      (if g ≠ Gaze.center then b - 20 else b) := by
    intro a b hab
    split_ifs <;> omega
  have h5 : ∀ a b : ℤ, a ≤ b →
      (if r < 8 then a - 35 else if r < 12 then a - 20
       else if r > 35 then a - 25 else if r > 25 then a - 10 else a) ≤
      (if r < 8 then b - 35 else if r < 12 then b - 20
       else if r > 35 then b - 25 else if r > 25 then b - 10 else b) := by
    intro a b hab
    split_ifs <;> omega
  exact max_le_max le_rfl (min_le_min le_rfl (h5 _ _ (h4 _ _ (h3 _ _ h))))

/-- Unfolding `calculateAttentionScore` to the tail applied to the
EAR-then-MAR deductions. -/
lemma calculateAttentionScore_as_tail (ear mar : ℚ) (p : HeadPose)
    (g : Gaze) (r : ℕ) :
    calculateAttentionScore ear mar p g r =
      scoreAfterMar p g r
        (if mar > mkRat 7 10 then
           (if ear < mkRat 15 100 then (100 : ℤ) - 40
            else if ear < mkRat 20 100 then 100 - 25
            else if ear < mkRat 25 100 then 100 - 10
            else 100) - 30
         else if mar > mkRat 5 10 then
           (if ear < mkRat 15 100 then (100 : ℤ) - 40
            else if ear < mkRat 20 100 then 100 - 25
            else if ear < mkRat 25 100 then 100 - 10
            else 100) - 15
         else
           (if ear < mkRat 15 100 then (100 : ℤ) - 40
            else if ear < mkRat 20 100 then 100 - 25
            else if ear < mkRat 25 100 then 100 - 10
            else 100)) := rfl

/-- C7: for all inputs the attention score lies in `[0, 100]`, and for fixed
ear, head pose, gaze and blink rate it is non-increasing in mar on the
region `mar > 0.5`. -/
theorem attention_score_bounded_and_mar_antitone
    (ear : ℚ) (headPose : HeadPose) (gaze : Gaze) (blinkRate : ℕ) :
    (∀ mar : ℚ, 0 ≤ calculateAttentionScore ear mar headPose gaze blinkRate ∧
        calculateAttentionScore ear mar headPose gaze blinkRate ≤ 100) ∧
    (∀ m1 m2 : ℚ, mkRat 5 10 < m1 → m1 ≤ m2 →
        calculateAttentionScore ear m2 headPose gaze blinkRate ≤
        calculateAttentionScore ear m1 headPose gaze blinkRate) := by
  constructor
  · intro mar
    rw [calculateAttentionScore_as_tail]
    exact scoreAfterMar_bounds _ _ _ _
  · intro m1 m2 h1 h12
    rw [calculateAttentionScore_as_tail, calculateAttentionScore_as_tail]
    apply scoreAfterMar_mono
    generalize (if ear < mkRat 15 100 then (100 : ℤ) - 40
      else if ear < mkRat 20 100 then 100 - 25
      else if ear < mkRat 25 100 then 100 - 10
      else 100) = s1
    split_ifs <;> first | omega | linarith

/-- Witness for C7: concrete inputs with `0.5 < 0.6 ≤ 0.8`. -/
theorem attention_score_bounded_and_mar_antitone_witness :
    (mkRat 5 10 < mkRat 6 10 ∧ mkRat 6 10 ≤ mkRat 8 10) ∧
    (0 ≤ calculateAttentionScore (mkRat 3 10) (mkRat 6 10) ⟨0, 0, 0⟩
        Gaze.center 15 ∧
      calculateAttentionScore (mkRat 3 10) (mkRat 6 10) ⟨0, 0, 0⟩
        Gaze.center 15 ≤ 100) ∧
    calculateAttentionScore (mkRat 3 10) (mkRat 8 10) ⟨0, 0, 0⟩
        Gaze.center 15 ≤
      calculateAttentionScore (mkRat 3 10) (mkRat 6 10) ⟨0, 0, 0⟩
        Gaze.center 15 :=
  ⟨⟨by decide, by decide⟩,
   (attention_score_bounded_and_mar_antitone (mkRat 3 10) ⟨0, 0, 0⟩
      Gaze.center 15).1 (mkRat 6 10),
   (attention_score_bounded_and_mar_antitone (mkRat 3 10) ⟨0, 0, 0⟩
      Gaze.center 15).2 (mkRat 6 10) (mkRat 8 10) (by decide) (by decide)⟩

/-- A closed-eye blink state used to discriminate NaN behavior. -/
def closedEyeState : BlinkState :=
  { blinkTimestamps := [], isEyeClosed := true, lastBlinkTime := 0 }

/-- C8 counterexample: `detectBlink` performs no clamping — no function
mapping every input into the valid range `[0, 1]` reproduces its behavior,
because a NaN input takes neither comparison branch (open stays open, closed
stays closed), unlike every in-range value. -/
theorem no_clamp_reproduces_detectBlink :
    ¬ ∃ clamp : JSNum → ℚ,
      (∀ x : JSNum, 0 ≤ clamp x ∧ clamp x ≤ 1) ∧
      (∀ (s : BlinkState) (x : JSNum) (now : ℤ),
        detectBlink s x now = detectBlink s (JSNum.num (clamp x)) now) := by
  rintro ⟨clamp, -, heq⟩
  by_cases hc : clamp JSNum.nan < BLINK_THRESHOLD
  · have h1 : (detectBlink BlinkState.initial JSNum.nan 0).1.isEyeClosed =
        false := rfl
    have h2 : (detectBlink BlinkState.initial (JSNum.num (clamp JSNum.nan))
        0).1.isEyeClosed = true := by
      simp [detectBlink, jsLt, BlinkState.initial, hc]
    rw [heq BlinkState.initial JSNum.nan 0, h2] at h1
    exact Bool.noConfusion h1
  · have hge : BLINK_THRESHOLD ≤ clamp JSNum.nan := not_lt.mp hc
    have h1 : (detectBlink closedEyeState JSNum.nan 200).1.isEyeClosed =
        true := rfl
    have h2 : (detectBlink closedEyeState (JSNum.num (clamp JSNum.nan))
        200).1.isEyeClosed = false := by
      simp [detectBlink, jsLt, jsGe, closedEyeState, hc, hge]
    rw [heq closedEyeState JSNum.nan 200, h2] at h1
    exact Bool.noConfusion h1

/-- C8 amended: the detector never throws and is well-defined on every
input, but it does not clamp: for every non-NaN value its behavior happens
to coincide with that on the value clamped into `[0, 1]` (the 0.25 threshold
lies inside the range), while a NaN input takes neither comparison branch,
leaving the state unchanged and still returning the well-defined
sliding-window blink rate. -/
theorem detectBlink_total_clamp_equivalent_for_numbers :
    (∀ (s : BlinkState) (q : ℚ) (now : ℤ),
      detectBlink s (JSNum.num (max 0 (min 1 q))) now =
        detectBlink s (JSNum.num q) now) ∧
    (∀ (s : BlinkState) (now : ℤ),
      (detectBlink s JSNum.nan now).1 = s ∧
      (detectBlink s JSNum.nan now).2 =
        recentBlinkCount s.blinkTimestamps now) := by
  constructor
  · intro s q now
    have hT0 : ¬(BLINK_THRESHOLD ≤ (0 : ℚ)) := by
      norm_num [BLINK_THRESHOLD, Rat.mkRat_eq_div]
    have hT1 : BLINK_THRESHOLD ≤ (1 : ℚ) := by
      norm_num [BLINK_THRESHOLD, Rat.mkRat_eq_div]
    have hlt : (max 0 (min 1 q) < BLINK_THRESHOLD) ↔ (q < BLINK_THRESHOLD) := by
      rw [max_lt_iff, min_lt_iff]
      constructor
      · rintro ⟨-, h | h⟩
        · exact absurd hT1 (not_le.mpr h)
        · exact h
      · intro h
        exact ⟨lt_of_not_le hT0, Or.inr h⟩
    have hle : (BLINK_THRESHOLD ≤ max 0 (min 1 q)) ↔ (BLINK_THRESHOLD ≤ q) := by
      rw [le_max_iff, le_min_iff]
      constructor
      · rintro (h | ⟨-, h⟩)
        · exact absurd h hT0
        · exact h
      · intro h
        exact Or.inr ⟨hT1, h⟩
    have e1 : jsLt (JSNum.num (max 0 (min 1 q))) (JSNum.num BLINK_THRESHOLD) =
        jsLt (JSNum.num q) (JSNum.num BLINK_THRESHOLD) := by
      simp only [jsLt]
      exact decide_eq_decide.mpr hlt
    have e2 : jsGe (JSNum.num (max 0 (min 1 q))) (JSNum.num BLINK_THRESHOLD) =
        jsGe (JSNum.num q) (JSNum.num BLINK_THRESHOLD) := by
      simp only [jsGe]
      exact decide_eq_decide.mpr hle
    unfold detectBlink
    rw [e1, e2]
  · intro s now
    exact ⟨rfl, rfl⟩

/-- C9: stopping detection halts the sampling loop and resets the blink
tracker (log emptied, eye-closed flag cleared, last transition time cleared)
and the consecutive-drowsy-frame counter to their initial values, while
leaving the timer state untouched. -/
theorem stop_detection_resets_detector_preserves_timer (s : SystemState) :
    (memoizedStopDetection s).detection.isDetecting = false ∧
    (memoizedStopDetection s).detection.hasDetectionInterval = false ∧
    (memoizedStopDetection s).detection.hasAnimationFrame = false ∧
    (memoizedStopDetection s).detection.blink.blinkTimestamps = [] ∧
    (memoizedStopDetection s).detection.blink.isEyeClosed = false ∧
    (memoizedStopDetection s).detection.blink.lastBlinkTime = 0 ∧
    (memoizedStopDetection s).detection.blink = BlinkState.initial ∧
    (memoizedStopDetection s).detection.consecutiveDrowsyFrames = 0 ∧
    (memoizedStopDetection s).timer = s.timer :=
  ⟨rfl, rfl, rfl, rfl, rfl, rfl, rfl, rfl, rfl⟩

/-- C10: the `ear` of the emitted analysis result is the arithmetic mean of
the left-eye and right-eye EARs computed separately, and that same mean is
the value fed to the blink detector and the attention scorer. -/
theorem analysis_ear_is_mean_of_both_eyes (P : RealPrim) (lm : Landmarks)
    (emotion : String) (conf : ℚ) (blink : BlinkState) (cdf : ℕ) (now : ℤ) :
    (analyzeFace P lm emotion conf blink cdf now).2.ear =
      (computeAdvancedEAR P lm.leftEye + computeAdvancedEAR P lm.rightEye) / 2 ∧
    (analyzeFace P lm emotion conf blink cdf now).1 =
      (detectBlink blink
        (JSNum.num ((computeAdvancedEAR P lm.leftEye +
          computeAdvancedEAR P lm.rightEye) / 2)) now).1 ∧
    (analyzeFace P lm emotion conf blink cdf now).2.blinkRate =
      (detectBlink blink
        (JSNum.num ((computeAdvancedEAR P lm.leftEye +
          computeAdvancedEAR P lm.rightEye) / 2)) now).2 ∧
    (analyzeFace P lm emotion conf blink cdf now).2.attentionScore =
      calculateAttentionScore
        ((computeAdvancedEAR P lm.leftEye + computeAdvancedEAR P lm.rightEye) / 2)
        (computeMAR P lm.mouth) (estimateHeadPose P lm)
        (advancedGazeEstimation lm)
        (detectBlink blink
          (JSNum.num ((computeAdvancedEAR P lm.leftEye +
            computeAdvancedEAR P lm.rightEye) / 2)) now).2 :=
  ⟨rfl, rfl, rfl, rfl⟩

end FaceTimer
